import Mathlib

/-!
Verification of `crates/wdk-sys/src/input.h` from microsoft/windows-drivers-rs.

The header is processed by a C toolchain, so we embed two things:

1. A model of the MSVC x86-64 layout algorithm for the C types appearing in
   the file (`unsigned char/short/long/__int64`, structs, unions, bit-fields),
   and the two union declarations `_KGDTENTRY64` and `_KIDTENTRY64`
   translated member-for-member from the source.

2. A model of the preprocessor conditional structure of the file: given the
   definedness of `UMDF_VERSION_MAJOR` and `KMDF_VERSION_MAJOR`, the ordered
   list of includes and struct declarations the file contributes.
-/

namespace WdkInputH

/-- The scalar C types occurring in `input.h`. -/
inductive CType where
  | uchar
  | ushort
  | ulong
  | uint64
  deriving DecidableEq, Repr

/-- Size in bytes of the scalar types on x86-64 MSVC: `unsigned char` is 1,
`unsigned short` 2, `unsigned long` 4, `unsigned __int64` 8. -/
def CType.size : CType → Nat
  | .uchar => 1
  | .ushort => 2
  | .ulong => 4
  | .uint64 => 8

/-- Scalar alignment equals scalar size on x86-64 MSVC. -/
def CType.alignOf (t : CType) : Nat := t.size

/-- Width of a scalar type in bits. -/
def CType.bits (t : CType) : Nat := 8 * t.size

/-- One member of a struct or union body.  Nested aggregates (the anonymous
struct/union members of the source) are inserted with their separately
computed size and alignment. -/
inductive Member where
  | scalar (name : String) (ty : CType)
  | bitfield (name : String) (ty : CType) (width : Nat)
  | aggregate (name : String) (size : Nat) (alignOf : Nat)
  deriving DecidableEq, Repr

/-- The declared name of a member (anonymous members carry `""`). -/
def Member.name : Member → String
  | .scalar n _ => n
  | .bitfield n _ _ => n
  | .aggregate n _ _ => n

/-- The bit-field width of a member, `0` for non-bit-field members. -/
def Member.width : Member → Nat
  | .bitfield _ _ w => w
  | _ => 0

/-- Whether a member is a bit-field. -/
def Member.isBitfield : Member → Bool
  | .bitfield _ _ _ => true
  | _ => false

/-- The declared type of a scalar or bit-field member. -/
def Member.scalarTy : Member → Option CType
  | .scalar _ t => some t
  | .bitfield _ t _ => some t
  | .aggregate _ _ _ => none

/-- Storage footprint of a member viewed as a union alternative: a bit-field
occupies one allocation unit of its declared type. -/
def Member.byteSize : Member → Nat
  | .scalar _ t => t.size
  | .bitfield _ t _ => t.size
  | .aggregate _ sz _ => sz

/-- Alignment requirement of a member. -/
def Member.alignOf : Member → Nat
  | .scalar _ t => t.alignOf
  | .bitfield _ t _ => t.alignOf
  | .aggregate _ _ al => al

/-- Round `o` up to the next multiple of `a` (for `a > 0`). -/
def alignUp (o a : Nat) : Nat :=
  if a = 0 then o else ((o + a - 1) / a) * a

/-- Running state of the MSVC struct-layout algorithm: bytes allocated so
far, largest alignment seen, and the open bit-field allocation unit, if any
(its declared type and the bits of it already used). -/
structure LayoutState where
  offset : Nat
  alignSoFar : Nat
  bitUnit : Option (CType × Nat)
  deriving DecidableEq, Repr

def LayoutState.init : LayoutState := ⟨0, 1, none⟩

/-- Place one member (MSVC rules): a non-bit-field closes any open bit-field
unit and is aligned to its own alignment; a bit-field continues the open unit
exactly when the declared type matches and the width still fits, and
otherwise opens a fresh allocation unit of its declared type.  Returns the
new state and the byte offset at which the member's storage begins. -/
def placeMember (s : LayoutState) : Member → LayoutState × Nat
  | .scalar _ t =>
      let off := alignUp s.offset t.alignOf
      (⟨off + t.size, max s.alignSoFar t.alignOf, none⟩, off)
  | .bitfield _ t w =>
      match s.bitUnit with
      | some (u, used) =>
          if u = t ∧ used + w ≤ u.bits then
            (⟨s.offset, s.alignSoFar, some (u, used + w)⟩, s.offset - u.size)
          else
            let off := alignUp s.offset t.alignOf
            (⟨off + t.size, max s.alignSoFar t.alignOf, some (t, w)⟩, off)
      | none =>
          let off := alignUp s.offset t.alignOf
          (⟨off + t.size, max s.alignSoFar t.alignOf, some (t, w)⟩, off)
  | .aggregate _ sz al =>
      let off := alignUp s.offset al
      (⟨off + sz, max s.alignSoFar al, none⟩, off)

/-- Lay out a struct body, returning the final state and the byte offset of
every member in order. -/
def layoutFields : LayoutState → List Member → LayoutState × List (String × Nat)
  | s, [] => (s, [])
  | s, m :: ms =>
      let p := placeMember s m
      let r := layoutFields p.1 ms
      (r.1, (m.name, p.2) :: r.2)

/-- Byte offsets of all members of a struct body. -/
def structOffsets (ms : List Member) : List (String × Nat) :=
  (layoutFields LayoutState.init ms).2

/-- Byte offset of the named member of a struct body. -/
def offsetOf (n : String) (ms : List Member) : Option Nat :=
  (structOffsets ms).lookup n

/-- Alignment of a struct: the largest member alignment. -/
def structAlign (ms : List Member) : Nat :=
  (layoutFields LayoutState.init ms).1.alignSoFar

/-- Size (`sizeof`) of a struct: bytes allocated, padded to the struct
alignment. -/
def structSize (ms : List Member) : Nat :=
  let s := (layoutFields LayoutState.init ms).1
  alignUp s.offset s.alignSoFar

/-- Alignment of a union: the largest member alignment. -/
def unionAlign (ms : List Member) : Nat :=
  ms.foldr (fun m a => max m.alignOf a) 1

/-- Size (`sizeof`) of a union: the largest member footprint, padded to the
union alignment. -/
def unionSize (ms : List Member) : Nat :=
  alignUp (ms.foldr (fun m a => max m.byteSize a) 0) (unionAlign ms)

/-! ### The two gap-filled declarations, translated from `input.h` -/

/-- The `Bytes` sub-view of `_KGDTENTRY64`: four whole bytes. -/
def KGDTENTRY64_Bytes : List Member :=
  [.scalar "BaseMiddle" .uchar,
   .scalar "Flags1" .uchar,
   .scalar "Flags2" .uchar,
   .scalar "BaseHigh" .uchar]

/-- The `Bits` sub-view of `_KGDTENTRY64`: ten `unsigned long` bit-fields. -/
def KGDTENTRY64_Bits : List Member :=
  [.bitfield "BaseMiddle" .ulong 8,
   .bitfield "Type" .ulong 5,
   .bitfield "Dpl" .ulong 2,
   .bitfield "Present" .ulong 1,
   .bitfield "LimitHigh" .ulong 4,
   .bitfield "System" .ulong 1,
   .bitfield "LongMode" .ulong 1,
   .bitfield "DefaultBig" .ulong 1,
   .bitfield "Granularity" .ulong 1,
   .bitfield "BaseHigh" .ulong 8]

/-- The anonymous inner union of `_KGDTENTRY64`, overlaying the `Bytes` and
`Bits` sub-views. -/
def KGDTENTRY64_BytesBits : List Member :=
  [.aggregate "Bytes" (structSize KGDTENTRY64_Bytes) (structAlign KGDTENTRY64_Bytes),
   .aggregate "Bits" (structSize KGDTENTRY64_Bits) (structAlign KGDTENTRY64_Bits)]

/-- The anonymous struct member of `_KGDTENTRY64` (all members but
`Alignment`). -/
def KGDTENTRY64_struct : List Member :=
  [.scalar "LimitLow" .ushort,
   .scalar "BaseLow" .ushort,
   .aggregate "" (unionSize KGDTENTRY64_BytesBits) (unionAlign KGDTENTRY64_BytesBits),
   .scalar "BaseUpper" .ulong,
   .scalar "MustBeZero" .ulong]

/-- The top-level union body of `_KGDTENTRY64`. -/
def KGDTENTRY64_members : List Member :=
  [.aggregate "" (structSize KGDTENTRY64_struct) (structAlign KGDTENTRY64_struct),
   .scalar "Alignment" .uint64]

/-- Value of `sizeof(KGDTENTRY64)`. -/
def sizeof_KGDTENTRY64 : Nat := unionSize KGDTENTRY64_members

/-- The anonymous struct member of `_KIDTENTRY64` (all members but
`Alignment`). -/
def KIDTENTRY64_struct : List Member :=
  [.scalar "OffsetLow" .ushort,
   .scalar "Selector" .ushort,
   .bitfield "IstIndex" .ushort 3,
   .bitfield "Reserved0" .ushort 5,
   .bitfield "Type" .ushort 5,
   .bitfield "Dpl" .ushort 2,
   .bitfield "Present" .ushort 1,
   .scalar "OffsetMiddle" .ushort,
   .scalar "OffsetHigh" .ulong,
   .scalar "Reserved1" .ulong]

/-- The top-level union body of `_KIDTENTRY64`. -/
def KIDTENTRY64_members : List Member :=
  [.aggregate "" (structSize KIDTENTRY64_struct) (structAlign KIDTENTRY64_struct),
   .scalar "Alignment" .uint64]

/-- Value of `sizeof(KIDTENTRY64)`. -/
def sizeof_KIDTENTRY64 : Nat := unionSize KIDTENTRY64_members

/-! ### The preprocessor structure of `input.h` -/

/-- One item contributed to the processed declaration set: a header include
or a struct declaration. -/
inductive Item where
  | inc (header : String)
  | structDecl (name : String)
  deriving DecidableEq, Repr

/-- The ordered list of includes and declarations produced by preprocessing
`input.h`, as a function of whether `UMDF_VERSION_MAJOR` and
`KMDF_VERSION_MAJOR` are defined.  Translated directly from the `#if`
structure of the file. -/
def processInput (umdf kmdf : Bool) : List Item :=
  (if umdf then
    [Item.inc "windows.h"]
  else
    [Item.inc "ntifs.h", Item.inc "ntddk.h",
     Item.structDecl "KGDTENTRY64", Item.structDecl "KIDTENTRY64"])
  ++ (if kmdf || umdf then [Item.inc "wdf.h"] else [])

/-- Processing phase of an item: base-target includes are phase 0, the
gap-filled declarations phase 1, the optional framework include phase 2. -/
def phaseOf : Item → Nat
  | .inc h => if h = "wdf.h" then 2 else 0
  | .structDecl _ => 1

/-! ### Claims -/

/-- C1, counterexample: in the configuration with `UMDF_VERSION_MAJOR`
undefined (and `KMDF_VERSION_MAJOR` undefined) the gap-filled declarations
are emitted, yet the compiler-computed size of each union is 16 bytes, not
the 8 bytes the claim states. -/
theorem C1_counterexample :
    Item.structDecl "KGDTENTRY64" ∈ processInput false false ∧
    Item.structDecl "KIDTENTRY64" ∈ processInput false false ∧
    sizeof_KGDTENTRY64 = 16 ∧ ¬ sizeof_KGDTENTRY64 = 8 ∧
    sizeof_KIDTENTRY64 = 16 ∧ ¬ sizeof_KIDTENTRY64 = 8 := by decide

/-- C1 (amended): for every preprocessor-symbol configuration in which the
gap-filled declarations are emitted (`UMDF_VERSION_MAJOR` undefined), the
compiler-computed size of each of the two gap-filled structures,
`KGDTENTRY64` and `KIDTENTRY64`, equals 16 bytes (two 64-bit alignment
units). -/
theorem C1_gap_filled_sizes (umdf kmdf : Bool) (h : umdf = false) :
    Item.structDecl "KGDTENTRY64" ∈ processInput umdf kmdf ∧
    Item.structDecl "KIDTENTRY64" ∈ processInput umdf kmdf ∧
    sizeof_KGDTENTRY64 = 16 ∧ sizeof_KIDTENTRY64 = 16 := by
  subst h; cases kmdf <;> decide

/-- C1 witness: the amended size property at the concrete configuration in
which neither symbol is defined. -/
theorem C1_gap_filled_sizes_witness :
    Item.structDecl "KGDTENTRY64" ∈ processInput false false ∧
    Item.structDecl "KIDTENTRY64" ∈ processInput false false ∧
    sizeof_KGDTENTRY64 = 16 ∧ sizeof_KIDTENTRY64 = 16 :=
  C1_gap_filled_sizes false false rfl

/-- C2, counterexample: the final `Alignment` member of `KGDTENTRY64` is an
`unsigned __int64` of size 8 bytes, while the total size of the union is
16 bytes, so the alignment field does not overlap the whole structure. -/
theorem C2_counterexample :
    KGDTENTRY64_members.getLast? = some (Member.scalar "Alignment" CType.uint64) ∧
    (Member.scalar "Alignment" CType.uint64).byteSize = 8 ∧
    unionSize KGDTENTRY64_members = 16 ∧
    ¬ (Member.scalar "Alignment" CType.uint64).byteSize =
        unionSize KGDTENTRY64_members := by decide

/-- C2 (amended): for each of the two gap-filled unions, the final
`Alignment` member (an `unsigned __int64`) has size 8 bytes, which equals
the union's alignment and half its total size of 16 bytes: the alignment
field forces the compiler to align and pad the union to a multiple of
8 bytes, but it overlaps only the first 8 bytes, not the whole structure. -/
theorem C2_alignment_member :
    KGDTENTRY64_members.getLast? = some (Member.scalar "Alignment" CType.uint64) ∧
    KIDTENTRY64_members.getLast? = some (Member.scalar "Alignment" CType.uint64) ∧
    (Member.scalar "Alignment" CType.uint64).byteSize = 8 ∧
    unionAlign KGDTENTRY64_members = 8 ∧
    unionAlign KIDTENTRY64_members = 8 ∧
    sizeof_KGDTENTRY64 = 2 * 8 ∧
    sizeof_KIDTENTRY64 = 2 * 8 := by decide

/-- C3: for every symbol configuration, the processed declaration set
contains exactly one definition each of `KGDTENTRY64` and `KIDTENTRY64` when
`UMDF_VERSION_MAJOR` is undefined, and zero when it is defined; in no
configuration two. -/
theorem C3_exactly_one_definition (umdf kmdf : Bool) :
    (processInput umdf kmdf).count (Item.structDecl "KGDTENTRY64") =
      (if umdf then 0 else 1) ∧
    (processInput umdf kmdf).count (Item.structDecl "KIDTENTRY64") =
      (if umdf then 0 else 1) := by
  cases umdf <;> cases kmdf <;> decide

/-- C4: base-target selection is decided solely by whether
`UMDF_VERSION_MAJOR` is defined — `windows.h` is selected exactly when it is
defined, `ntifs.h` followed by `ntddk.h` exactly when it is not, and in
every configuration exactly one of the two base sets is present: never zero,
never both. -/
theorem C4_base_selection (umdf kmdf : Bool) :
    ((Item.inc "windows.h" ∈ processInput umdf kmdf) ↔ umdf = true) ∧
    ((Item.inc "ntifs.h" ∈ processInput umdf kmdf ∧
      Item.inc "ntddk.h" ∈ processInput umdf kmdf) ↔ umdf = false) ∧
    (((Item.inc "windows.h" ∈ processInput umdf kmdf) ∧
      ¬ (Item.inc "ntifs.h" ∈ processInput umdf kmdf ∧
         Item.inc "ntddk.h" ∈ processInput umdf kmdf)) ∨
     (¬ (Item.inc "windows.h" ∈ processInput umdf kmdf) ∧
      (Item.inc "ntifs.h" ∈ processInput umdf kmdf ∧
       Item.inc "ntddk.h" ∈ processInput umdf kmdf))) := by
  cases umdf <;> cases kmdf <;> decide

/-- C5: for every symbol configuration, `wdf.h` is in the final declaration
set if and only if `KMDF_VERSION_MAJOR` or `UMDF_VERSION_MAJOR` is defined,
the same condition in both base-target branches; when neither symbol is
defined, `wdf.h` is absent. -/
theorem C5_wdf_inclusion (umdf kmdf : Bool) :
    (Item.inc "wdf.h" ∈ processInput umdf kmdf) ↔
      (kmdf = true ∨ umdf = true) := by
  cases umdf <;> cases kmdf <;> decide

/-- C6: in every configuration the processed output is ordered by phase —
every base-layer include precedes every gap-filled declaration, and both
precede the `wdf.h` framework include whenever it is present. -/
theorem C6_phase_ordering (umdf kmdf : Bool) :
    (processInput umdf kmdf).Pairwise (fun a b => phaseOf a ≤ phaseOf b) := by
  cases umdf <;> cases kmdf <;> decide

/-- C7: `KGDTENTRY64` is declared with members `LimitLow`, `BaseLow`, an
anonymous union of the `Bytes` sub-view (four whole bytes) and the `Bits`
sub-view (ten packed `unsigned long` bit-fields), then `BaseUpper` and
`MustBeZero`; the `Bits` widths sum to exactly 32 bits, the size of the
`Bytes` view, so the two sub-views interpret the same 4 bytes. -/
theorem C7_kgdt_fields :
    KGDTENTRY64_struct.map Member.name =
      ["LimitLow", "BaseLow", "", "BaseUpper", "MustBeZero"] ∧
    KGDTENTRY64_BytesBits.map Member.name = ["Bytes", "Bits"] ∧
    KGDTENTRY64_Bytes =
      [.scalar "BaseMiddle" .uchar, .scalar "Flags1" .uchar,
       .scalar "Flags2" .uchar, .scalar "BaseHigh" .uchar] ∧
    KGDTENTRY64_Bits =
      [.bitfield "BaseMiddle" .ulong 8, .bitfield "Type" .ulong 5,
       .bitfield "Dpl" .ulong 2, .bitfield "Present" .ulong 1,
       .bitfield "LimitHigh" .ulong 4, .bitfield "System" .ulong 1,
       .bitfield "LongMode" .ulong 1, .bitfield "DefaultBig" .ulong 1,
       .bitfield "Granularity" .ulong 1, .bitfield "BaseHigh" .ulong 8] ∧
    (KGDTENTRY64_Bits.map Member.width).sum = 32 ∧
    structSize KGDTENTRY64_Bytes = 4 ∧
    structSize KGDTENTRY64_Bits = 4 ∧
    8 * structSize KGDTENTRY64_Bytes = 32 := by decide

/-- C8: `KIDTENTRY64` is declared with, in order, `OffsetLow`, `Selector`,
the bit-fields `IstIndex:3`, `Reserved0:5`, `Type:5`, `Dpl:2`, `Present:1`,
then `OffsetMiddle`, `OffsetHigh` and `Reserved1`, the whole struct overlaid
in a union with a 64-bit `Alignment` field; `Selector` lies between the low
and middle offset parts. -/
theorem C8_kidt_fields :
    KIDTENTRY64_struct =
      [.scalar "OffsetLow" .ushort, .scalar "Selector" .ushort,
       .bitfield "IstIndex" .ushort 3, .bitfield "Reserved0" .ushort 5,
       .bitfield "Type" .ushort 5, .bitfield "Dpl" .ushort 2,
       .bitfield "Present" .ushort 1, .scalar "OffsetMiddle" .ushort,
       .scalar "OffsetHigh" .ulong, .scalar "Reserved1" .ulong] ∧
    KIDTENTRY64_members.getLast? =
      some (Member.scalar "Alignment" CType.uint64) ∧
    CType.uint64.bits = 64 ∧
    offsetOf "OffsetLow" KIDTENTRY64_struct = some 0 ∧
    offsetOf "Selector" KIDTENTRY64_struct = some 2 ∧
    offsetOf "OffsetMiddle" KIDTENTRY64_struct = some 6 ∧
    offsetOf "OffsetHigh" KIDTENTRY64_struct = some 8 := by decide

/-- C9: when `UMDF_VERSION_MAJOR` is defined the output declaration set is
identical whether or not `KMDF_VERSION_MAJOR` is also defined — `windows.h`
plus `wdf.h` in both runs — and the layer emits no error when both
base-environment symbols are defined. -/
theorem C9_umdf_ignores_kmdf :
    processInput true true = processInput true false ∧
    processInput true true = [Item.inc "windows.h", Item.inc "wdf.h"] := by
  decide

/-- C10: the five bit-fields of `KIDTENTRY64` are all declared
`unsigned short` with widths 3, 5, 5, 2, 1 summing to exactly 16 bits, they
all pack into the single 16-bit storage unit at byte offset 4, and
`OffsetMiddle` begins at byte offset 6 of the structure. -/
theorem C10_kidt_bitfield_packing :
    KIDTENTRY64_struct.filter Member.isBitfield =
      [.bitfield "IstIndex" .ushort 3, .bitfield "Reserved0" .ushort 5,
       .bitfield "Type" .ushort 5, .bitfield "Dpl" .ushort 2,
       .bitfield "Present" .ushort 1] ∧
    ((KIDTENTRY64_struct.filter Member.isBitfield).map Member.width).sum = 16 ∧
    (KIDTENTRY64_struct.filter Member.isBitfield).map
        (fun m => offsetOf m.name KIDTENTRY64_struct) =
      [some 4, some 4, some 4, some 4, some 4] ∧
    CType.ushort.bits = 16 ∧
    offsetOf "OffsetMiddle" KIDTENTRY64_struct = some 6 := by decide

end WdkInputH
